import Mathlib

/-!
Shallow embedding of the Arduino weather-station sketch
(src/Arduino_Sketch/WeatherStation.ino) and verification of the claims about
its interrupt-driven aggregation engine.

Modelling conventions:
- Machine arithmetic on Arduino types is explicit: a byte value is a natural
  number reduced modulo 256 at each write, and subtraction of two
  unsigned-long millis() values is 32-bit wrapping subtraction (usub32).
- C float arithmetic is modelled over the exact rationals.  A float division
  whose divisor is zero produces no real number (IEEE NaN or infinity), so the
  instantaneous wind-speed value is an Option: none models that outcome.
- The two 60-slot / 40-slot arrays are total functions on the naturals; the
  program only ever touches indices below 60 resp. 40.
-/

/-- 32-bit unsigned subtraction, as performed on two unsigned-long millis()
values by the C expressions of the form (millis() - lastTimestamp). -/
def usub32 (a b : ℕ) : ℕ :=
  (a + 2 ^ 32 - b % 2 ^ 32) % 2 ^ 32

/-- Under a monotone clock with no wraparound between the two samples,
32-bit unsigned subtraction is exact subtraction. -/
theorem usub32_eq {a b : ℕ} (h1 : b ≤ a) (h2 : a < b + 2 ^ 32) (h3 : b < 2 ^ 32) :
    usub32 a b = a - b := by
  unfold usub32
  omega

/-- The wind-vane calibration table, lines 306-321: the (threshold, degrees)
pair of each of the sixteen successive if-statements, in source order
(ascending thresholds). -/
def directionTable : List (ℕ × ℤ) :=
  [(380, 113), (393, 68), (414, 90), (456, 158), (508, 135), (551, 203),
   (615, 180), (680, 23), (746, 45), (801, 248), (833, 225), (878, 338),
   (913, 0), (940, 293), (967, 315), (990, 270)]

/-- Lines 305-321: winddir starts at -1 and each if-statement whose threshold
exceeds the ADC reading overwrites it with that entry's degree value; the
fold replays the sixteen assignments in source order. -/
def computeDirection (adc : ℕ) : ℤ :=
  directionTable.foldl (fun acc e => if adc < e.1 then e.2 else acc) (-1)

/-- Statement of the spec's direction semantics, for comparison with
computeDirection: the degree value of the last table entry whose threshold
exceeds the reading, and -1 when no threshold does. -/
def lastMatchSpec (adc : ℕ) : ℤ :=
  (((directionTable.filter (fun e => adc < e.1)).getLast?).map Prod.snd).getD (-1)

/-- Lines 325-331: deltaTime = (now - lastWindCheck) / 1000, then
windspeed = windClicks / deltaTime * 1.492 * 0.44704.  The source performs
the float division unguarded; a zero elapsed time gives IEEE NaN or infinity,
modelled as none. -/
def computeSpeed (ticks elapsedMs : ℕ) : Option ℚ :=
  if elapsedMs = 0 then none
  else some ((ticks : ℚ) / ((elapsedMs : ℚ) / 1000) * 1.492 * 0.44704)

/-- The sketch's global mutable state (lines 43-76), restricted to the fields
the aggregation engine reads or writes.  Byte-typed globals (seconds, minutes,
windClicks, windGustClicks, currentWindGust) are naturals kept below 256 by
wrapping at each write. -/
structure Station where
  seconds : ℕ
  minutes : ℕ
  lastWindCheck : ℕ
  lastWindIRQ : ℕ
  windClicks : ℕ
  lastWindGustCheck : ℕ
  windGustClicks : ℕ
  currentWindGust : ℕ
  rainHour : ℕ → ℚ
  winddir : ℤ
  windspeed : Option ℚ
  windgust_2m : ℕ → ℚ
  rainin : ℚ
  rainlast : ℕ
  humidity : ℚ
  pressure : ℚ
  pTempc : ℚ
  hTempc : ℚ
  irTempc : ℚ
  irSkyTempc : ℚ
  light_lvl : ℚ

/-- The power-up state: counters and accumulators zero (C globals are
zero-initialised). -/
def station0 : Station where
  seconds := 0
  minutes := 0
  lastWindCheck := 0
  lastWindIRQ := 0
  windClicks := 0
  lastWindGustCheck := 0
  windGustClicks := 0
  currentWindGust := 0
  rainHour := fun _ => 0
  winddir := 0
  windspeed := some 0
  windgust_2m := fun _ => 0
  rainin := 0
  rainlast := 0
  humidity := 0
  pressure := 0
  pTempc := 0
  hTempc := 0
  irTempc := 0
  irSkyTempc := 0
  light_lvl := 0

/-- Lines 82-94: the rain-gauge interrupt.  raininterval = 32-bit
(raintime - rainlast); if it exceeds 10 ms the tip is accepted:
rainHour[minutes] += 0.011 and rainlast is advanced.  A rejected edge
changes nothing (raintime and raininterval are scratch). -/
def rainIRQ (now : ℕ) (st : Station) : Station :=
  let raininterval := usub32 now st.rainlast
  if raininterval > 10 then
    { st with
      rainHour := Function.update st.rainHour st.minutes (st.rainHour st.minutes + 0.011)
      rainlast := now }
  else st

/-- Lines 96-104: the anemometer interrupt.  If 32-bit (millis() - lastWindIRQ)
exceeds 10 ms the edge is accepted: lastWindIRQ is advanced and the byte
windClicks is incremented (wrapping at 256). -/
def wspeedIRQ (now : ℕ) (st : Station) : Station :=
  if usub32 now st.lastWindIRQ > 10 then
    { st with
      lastWindIRQ := now
      windClicks := (st.windClicks + 1) % 256 }
  else st

/-- Line 346-347: ++currentWindGust, then reset to 0 when the incremented
byte exceeds 39.  The result always lies below 40. -/
def gustIndex (c : ℕ) : ℕ :=
  if (c + 1) % 256 > 39 then 0 else (c + 1) % 256

theorem gustIndex_lt (c : ℕ) : gustIndex c < 40 := by
  unfold gustIndex
  split <;> omega

/-- Lines 296-321 of calc_wind: read the wind vane and commit winddir. -/
def windDirPart (adc : ℕ) (st : Station) : Station :=
  { st with winddir := computeDirection adc }

/-- Lines 325-332 of calc_wind: commit the instantaneous wind speed from the
current windClicks and the time elapsed since lastWindCheck, then advance
lastWindCheck. -/
def windSpeedPart (now : ℕ) (st : Station) : Station :=
  { st with
    windspeed := computeSpeed st.windClicks (usub32 now st.lastWindCheck)
    lastWindCheck := now }

/-- Lines 334-352 of calc_wind: if less than 3000 ms elapsed since
lastWindGustCheck, fold windClicks into the byte windGustClicks; otherwise
record windGustClicks / deltaMs * 1.492 * 0.44704 into the gust ring at the
advanced cursor and restart the interval.  The source neither divides the
elapsed time by 1000 nor resets windGustClicks on rotation. -/
def windGustPart (now : ℕ) (st : Station) : Station :=
  let gustDelta := usub32 now st.lastWindGustCheck
  if gustDelta < 3000 then
    { st with windGustClicks := (st.windGustClicks + st.windClicks) % 256 }
  else
    { st with
      currentWindGust := gustIndex st.currentWindGust
      windgust_2m := Function.update st.windgust_2m (gustIndex st.currentWindGust)
        ((st.windGustClicks : ℚ) / (gustDelta : ℚ) * 1.492 * 0.44704)
      lastWindGustCheck := now }

/-- Lines 294-356: calc_wind in source order — direction, instantaneous
speed, gust bookkeeping, then windClicks = 0 (line 354). -/
def calc_wind (now adc : ℕ) (st : Station) : Station :=
  { windGustPart now (windSpeedPart now (windDirPart adc st)) with windClicks := 0 }

/-- Lines 285-292: rainin = 0 then the loop accumulates the 60 slots in
index order. -/
def calc_rain (st : Station) : Station :=
  { st with rainin := (List.range 60).foldl (fun acc i => acc + st.rainHour i) 0 }

/-- Lines 277-282: ++seconds; when the incremented byte exceeds 59, reset
seconds, ++minutes with the same wrap-to-0 guard, and zero the new minute's
rain slot. -/
def clockStep (st : Station) : Station :=
  let s := (st.seconds + 1) % 256
  if s > 59 then
    let m := (st.minutes + 1) % 256
    let m2 := if m > 59 then 0 else m
    { st with
      seconds := 0
      minutes := m2
      rainHour := Function.update st.rainHour m2 0 }
  else
    { st with seconds := s }

/-- One aggregation cycle's sensor inputs: what the external sensor drivers
return during that cycle. -/
structure Sensors where
  humidityR : ℚ
  pressureR : ℚ
  hTempR : ℚ
  pTempR : ℚ
  irOk : Bool
  irAmbientR : ℚ
  irObjectR : ℚ
  wdirAdc : ℕ
  refAdc : ℚ
  lightAdc : ℚ

/-- Lines 358-371: light-sensor voltage scaled against the 3.3 V rail. -/
def get_light_level (env : Sensors) : ℚ :=
  3.3 / env.refAdc * env.lightAdc

/-- Lines 248-283: one aggregation cycle in source order.  On a successful IR
read (lines 268-272) the source binds the readings to fresh function-local
variables (float irTempc, float irSkyTempc) that shadow the module-level
globals, so neither branch changes module-level state: the step is the
identity on irTempc and irSkyTempc. -/
def calcWeather (env : Sensors) (now : ℕ) (st : Station) : Station :=
  let st1 := { st with humidity := env.humidityR }
  let st2 := { st1 with pressure := env.pressureR }
  let st3 := calc_rain st2
  let st4 := { st3 with light_lvl := get_light_level env }
  let st5 := { st4 with hTempc := env.hTempR }
  let st6 := { st5 with pTempc := env.pTempR }
  let st7 := st6
  let st8 := calc_wind now env.wdirAdc st7
  clockStep st8

/-! Projection lemmas: which fields each step leaves unchanged. -/

@[simp]
theorem windDirPart_windClicks (adc : ℕ) (st : Station) :
    (windDirPart adc st).windClicks = st.windClicks := rfl

@[simp]
theorem windDirPart_lastWindCheck (adc : ℕ) (st : Station) :
    (windDirPart adc st).lastWindCheck = st.lastWindCheck := rfl

@[simp]
theorem windDirPart_lastWindGustCheck (adc : ℕ) (st : Station) :
    (windDirPart adc st).lastWindGustCheck = st.lastWindGustCheck := rfl

@[simp]
theorem windDirPart_windGustClicks (adc : ℕ) (st : Station) :
    (windDirPart adc st).windGustClicks = st.windGustClicks := rfl

@[simp]
theorem windDirPart_currentWindGust (adc : ℕ) (st : Station) :
    (windDirPart adc st).currentWindGust = st.currentWindGust := rfl

@[simp]
theorem windDirPart_windgust_2m (adc : ℕ) (st : Station) :
    (windDirPart adc st).windgust_2m = st.windgust_2m := rfl

@[simp]
theorem windDirPart_seconds (adc : ℕ) (st : Station) :
    (windDirPart adc st).seconds = st.seconds := rfl

@[simp]
theorem windDirPart_minutes (adc : ℕ) (st : Station) :
    (windDirPart adc st).minutes = st.minutes := rfl

@[simp]
theorem windDirPart_rainHour (adc : ℕ) (st : Station) :
    (windDirPart adc st).rainHour = st.rainHour := rfl

@[simp]
theorem windDirPart_irTempc (adc : ℕ) (st : Station) :
    (windDirPart adc st).irTempc = st.irTempc := rfl

@[simp]
theorem windDirPart_irSkyTempc (adc : ℕ) (st : Station) :
    (windDirPart adc st).irSkyTempc = st.irSkyTempc := rfl

@[simp]
theorem windSpeedPart_windspeed (now : ℕ) (st : Station) :
    (windSpeedPart now st).windspeed
      = computeSpeed st.windClicks (usub32 now st.lastWindCheck) := rfl

@[simp]
theorem windSpeedPart_windClicks (now : ℕ) (st : Station) :
    (windSpeedPart now st).windClicks = st.windClicks := rfl

@[simp]
theorem windSpeedPart_lastWindGustCheck (now : ℕ) (st : Station) :
    (windSpeedPart now st).lastWindGustCheck = st.lastWindGustCheck := rfl

@[simp]
theorem windSpeedPart_windGustClicks (now : ℕ) (st : Station) :
    (windSpeedPart now st).windGustClicks = st.windGustClicks := rfl

@[simp]
theorem windSpeedPart_currentWindGust (now : ℕ) (st : Station) :
    (windSpeedPart now st).currentWindGust = st.currentWindGust := rfl

@[simp]
theorem windSpeedPart_windgust_2m (now : ℕ) (st : Station) :
    (windSpeedPart now st).windgust_2m = st.windgust_2m := rfl

@[simp]
theorem windSpeedPart_seconds (now : ℕ) (st : Station) :
    (windSpeedPart now st).seconds = st.seconds := rfl

@[simp]
theorem windSpeedPart_minutes (now : ℕ) (st : Station) :
    (windSpeedPart now st).minutes = st.minutes := rfl

@[simp]
theorem windSpeedPart_rainHour (now : ℕ) (st : Station) :
    (windSpeedPart now st).rainHour = st.rainHour := rfl

@[simp]
theorem windSpeedPart_irTempc (now : ℕ) (st : Station) :
    (windSpeedPart now st).irTempc = st.irTempc := rfl

@[simp]
theorem windSpeedPart_irSkyTempc (now : ℕ) (st : Station) :
    (windSpeedPart now st).irSkyTempc = st.irSkyTempc := rfl

@[simp]
theorem windGustPart_windspeed (now : ℕ) (st : Station) :
    (windGustPart now st).windspeed = st.windspeed := by
  unfold windGustPart; dsimp only; split <;> rfl

@[simp]
theorem windGustPart_windClicks (now : ℕ) (st : Station) :
    (windGustPart now st).windClicks = st.windClicks := by
  unfold windGustPart; dsimp only; split <;> rfl

@[simp]
theorem windGustPart_seconds (now : ℕ) (st : Station) :
    (windGustPart now st).seconds = st.seconds := by
  unfold windGustPart; dsimp only; split <;> rfl

@[simp]
theorem windGustPart_minutes (now : ℕ) (st : Station) :
    (windGustPart now st).minutes = st.minutes := by
  unfold windGustPart; dsimp only; split <;> rfl

@[simp]
theorem windGustPart_rainHour (now : ℕ) (st : Station) :
    (windGustPart now st).rainHour = st.rainHour := by
  unfold windGustPart; dsimp only; split <;> rfl

@[simp]
theorem windGustPart_irTempc (now : ℕ) (st : Station) :
    (windGustPart now st).irTempc = st.irTempc := by
  unfold windGustPart; dsimp only; split <;> rfl

@[simp]
theorem windGustPart_irSkyTempc (now : ℕ) (st : Station) :
    (windGustPart now st).irSkyTempc = st.irSkyTempc := by
  unfold windGustPart; dsimp only; split <;> rfl

@[simp]
theorem calc_wind_windspeed (now adc : ℕ) (st : Station) :
    (calc_wind now adc st).windspeed
      = computeSpeed st.windClicks (usub32 now st.lastWindCheck) := by
  simp [calc_wind]

@[simp]
theorem calc_wind_seconds (now adc : ℕ) (st : Station) :
    (calc_wind now adc st).seconds = st.seconds := by
  simp [calc_wind]

@[simp]
theorem calc_wind_minutes (now adc : ℕ) (st : Station) :
    (calc_wind now adc st).minutes = st.minutes := by
  simp [calc_wind]

@[simp]
theorem calc_wind_rainHour (now adc : ℕ) (st : Station) :
    (calc_wind now adc st).rainHour = st.rainHour := by
  simp [calc_wind]

@[simp]
theorem calc_wind_irTempc (now adc : ℕ) (st : Station) :
    (calc_wind now adc st).irTempc = st.irTempc := by
  simp [calc_wind]

@[simp]
theorem calc_wind_irSkyTempc (now adc : ℕ) (st : Station) :
    (calc_wind now adc st).irSkyTempc = st.irSkyTempc := by
  simp [calc_wind]

@[simp]
theorem calc_rain_seconds (st : Station) : (calc_rain st).seconds = st.seconds := rfl

@[simp]
theorem calc_rain_minutes (st : Station) : (calc_rain st).minutes = st.minutes := rfl

@[simp]
theorem calc_rain_rainHour (st : Station) : (calc_rain st).rainHour = st.rainHour := rfl

@[simp]
theorem calc_rain_irTempc (st : Station) : (calc_rain st).irTempc = st.irTempc := rfl

@[simp]
theorem calc_rain_irSkyTempc (st : Station) : (calc_rain st).irSkyTempc = st.irSkyTempc := rfl

@[simp]
theorem clockStep_irTempc (st : Station) : (clockStep st).irTempc = st.irTempc := by
  unfold clockStep; dsimp only; split <;> rfl

@[simp]
theorem clockStep_irSkyTempc (st : Station) : (clockStep st).irSkyTempc = st.irSkyTempc := by
  unfold clockStep; dsimp only; split <;> rfl

/-- Claim C1: every cycle, the instantaneous wind speed committed by
calc_wind equals ticks * 1.492 * 0.44704 / (elapsedMs / 1000), where ticks is
the debounced anemometer count at the start of the cycle and elapsedMs the
time elapsed since the previous wind check; at ticks = 3 and elapsedMs = 750
the value 3 * 1.492 * 0.44704 / 0.75 lies strictly between 2.666 and 2.67. -/
theorem c1_windspeed_formula (now adc : ℕ) (st : Station)
    (h1 : st.lastWindCheck < now) (h2 : now < st.lastWindCheck + 2 ^ 32)
    (h3 : st.lastWindCheck < 2 ^ 32) :
    (calc_wind now adc st).windspeed
      = some ((st.windClicks : ℚ) * 1.492 * 0.44704
          / (((now - st.lastWindCheck : ℕ) : ℚ) / 1000))
    ∧ (2.666 : ℚ) < 3 * 1.492 * 0.44704 / ((750 : ℚ) / 1000)
    ∧ (3 : ℚ) * 1.492 * 0.44704 / ((750 : ℚ) / 1000) < 2.67 := by
  refine ⟨?_, by norm_num, by norm_num⟩
  rw [calc_wind_windspeed, usub32_eq (le_of_lt h1) h2 h3]
  unfold computeSpeed
  rw [if_neg (by omega)]
  have hpos : (0 : ℚ) < ((now - st.lastWindCheck : ℕ) : ℚ) := by
    have : 0 < now - st.lastWindCheck := by omega
    exact_mod_cast this
  congr 1
  field_simp
  ring

/-- A cycle state with three debounced anemometer ticks pending, used to
instantiate the wind-speed claim. -/
def stW1 : Station := { station0 with windClicks := 3 }

/-- Witness for C1: the wind-speed formula instantiated at 3 ticks over the
750 ms elapsed from time 0 to time 750. -/
theorem c1_witness :
    (calc_wind 750 0 stW1).windspeed
      = some ((stW1.windClicks : ℚ) * 1.492 * 0.44704
          / (((750 - stW1.lastWindCheck : ℕ) : ℚ) / 1000))
    ∧ (2.666 : ℚ) < 3 * 1.492 * 0.44704 / ((750 : ℚ) / 1000)
    ∧ (3 : ℚ) * 1.492 * 0.44704 / ((750 : ℚ) / 1000) < 2.67 :=
  c1_windspeed_formula 750 0 stW1 (by decide) (by decide) (by decide)

/-- Replaying successive overwriting if-statements over a list leaves the
image of the last element satisfying the predicate, or the initial value when
none does. -/
theorem foldl_overwrite {α β : Type} (p : α → Prop) [DecidablePred p] (f : α → β)
    (l : List α) (a : β) :
    l.foldl (fun acc e => if p e then f e else acc) a
      = (((l.filter (fun e => decide (p e))).getLast?).map f).getD a := by
  induction l using List.reverseRecOn with
  | nil => rfl
  | append_singleton xs x ih =>
    rw [List.foldl_append, List.filter_append]
    by_cases hx : p x
    · rw [List.foldl_cons, List.foldl_nil, if_pos hx]
      have hfx : List.filter (fun e => decide (p e)) [x] = [x] := by
        simp [List.filter, hx]
      rw [hfx, List.getLast?_concat]
      rfl
    · rw [List.foldl_cons, List.foldl_nil, if_neg hx]
      have hfx : List.filter (fun e => decide (p e)) [x] = [] := by
        simp [List.filter, hx]
      rw [hfx, List.append_nil, ih]

/-- When no element satisfies the predicate, the overwriting fold keeps its
initial value. -/
theorem foldl_overwrite_none {α β : Type} (p : α → Prop) [DecidablePred p] (f : α → β) :
    ∀ (l : List α) (a : β), (∀ e ∈ l, ¬ p e) →
      l.foldl (fun acc e => if p e then f e else acc) a = a := by
  intro l
  induction l with
  | nil => intro a _; rfl
  | cons x xs ih =>
    intro a h
    rw [List.foldl_cons, if_neg (h x (by simp))]
    exact ih a fun e he => h e (by simp [he])

/-- Every threshold in the calibration table is at most 990. -/
theorem directionTable_bound : ∀ e ∈ directionTable, e.1 ≤ 990 := by decide

/-- Claim C3: for every ADC reading, the successive-overwrite scan of the
16-entry table returns the degree value of the last table entry whose
threshold exceeds the reading, and returns the sentinel -1 when no threshold
exceeds the reading (ADC at or above 990). -/
theorem c3_direction_last_match (adc : ℕ) :
    computeDirection adc = lastMatchSpec adc
    ∧ (990 ≤ adc → computeDirection adc = -1) := by
  constructor
  · exact foldl_overwrite (fun e => adc < e.1) Prod.snd directionTable (-1)
  · intro h
    unfold computeDirection
    exact foldl_overwrite_none _ _ directionTable (-1) fun e he => by
      have := directionTable_bound e he
      omega

/-- Witness for C3: at the unmapped reading 1000 the scan agrees with the
last-match semantics and yields the sentinel. -/
theorem c3_witness :
    computeDirection 1000 = lastMatchSpec 1000 ∧ computeDirection 1000 = -1 :=
  ⟨(c3_direction_last_match 1000).1, (c3_direction_last_match 1000).2 (by norm_num)⟩

/-- Counterexample to claim C4: at ADC = 0 the computed direction is 270
(the largest-threshold entry, 990), not 113 (the smallest-threshold entry). -/
theorem c4_counterexample :
    computeDirection 0 = 270 ∧ computeDirection 0 ≠ 113 := by
  constructor <;> decide

set_option maxRecDepth 4000 in
/-- Claim C4 as amended: for any reading below every threshold (ADC < 380),
the successive overwrites end with the largest-threshold entry, so the
computed direction is that entry's degree value 270 (threshold 990). -/
theorem c4_amended_smallest_reading (adc : ℕ) (h : adc < 380) :
    computeDirection adc = 270 := by
  have haux : ∀ a : Fin 380, computeDirection a.val = 270 := by decide
  exact haux ⟨adc, h⟩

/-- Witness for the amended C4: ADC = 0 maps to 270. -/
theorem c4_witness : computeDirection 0 = 270 :=
  c4_amended_smallest_reading 0 (by norm_num)

/-- Claim C5: for both edge counters, an edge at time now is accepted iff
more than 10 ms have passed since the last accepted edge; an accepted edge
records exactly one tick (windClicks + 1 resp. the current minute's slot
+ 0.011) and advances the last-accepted timestamp, while a rejected edge
changes nothing. -/
theorem c5_debounce (now : ℕ) (st : Station)
    (hw1 : st.lastWindIRQ ≤ now) (hw2 : now < st.lastWindIRQ + 2 ^ 32)
    (hw3 : st.lastWindIRQ < 2 ^ 32)
    (hr1 : st.rainlast ≤ now) (hr2 : now < st.rainlast + 2 ^ 32)
    (hr3 : st.rainlast < 2 ^ 32)
    (hclk : st.windClicks < 255) :
    (10 < now - st.lastWindIRQ →
        (wspeedIRQ now st).windClicks = st.windClicks + 1
      ∧ (wspeedIRQ now st).lastWindIRQ = now)
  ∧ (now - st.lastWindIRQ ≤ 10 → wspeedIRQ now st = st)
  ∧ (10 < now - st.rainlast →
        (rainIRQ now st).rainHour st.minutes = st.rainHour st.minutes + 0.011
      ∧ (∀ j, j ≠ st.minutes → (rainIRQ now st).rainHour j = st.rainHour j)
      ∧ (rainIRQ now st).rainlast = now)
  ∧ (now - st.rainlast ≤ 10 → rainIRQ now st = st) := by
  unfold wspeedIRQ rainIRQ
  rw [usub32_eq hw1 hw2 hw3, usub32_eq hr1 hr2 hr3]
  refine ⟨fun h => ?_, fun h => ?_, fun h => ?_, fun h => ?_⟩
  · rw [if_pos h]
    exact ⟨by simp [Nat.mod_eq_of_lt (by omega : st.windClicks + 1 < 256)], rfl⟩
  · rw [if_neg (by omega)]
  · rw [if_pos h]
    refine ⟨by simp, fun j hj => ?_, rfl⟩
    simp [Function.update, hj]
  · rw [if_neg (by omega)]

/-- Witness for C5: from the power-up state, an edge at 20 ms (more than
10 ms after the last accepted timestamp 0) is accepted by both counters. -/
theorem c5_witness :
    (wspeedIRQ 20 station0).windClicks = station0.windClicks + 1
  ∧ (rainIRQ 20 station0).rainHour station0.minutes
      = station0.rainHour station0.minutes + 0.011 :=
  ⟨((c5_debounce 20 station0 (by decide) (by decide) (by decide) (by decide)
      (by decide) (by decide) (by decide)).1 (by decide)).1,
   ((c5_debounce 20 station0 (by decide) (by decide) (by decide) (by decide)
      (by decide) (by decide) (by decide)).2.2.1 (by decide)).1⟩

/-- Claim C6 (the code side): the wind-speed computation of lines 325-331 is
not guarded; at zero elapsed time it performs the float division by zero
(IEEE NaN), modelled as none, instead of returning a numeric default. -/
theorem c6_unguarded_speed : computeSpeed 0 0 = none := rfl

/-- A cycle state with three stale gust-interval ticks, 3000 ms after the
last gust rotation. -/
def stC2 : Station := { station0 with windGustClicks := 3 }

/-- Claim C2 (the code side): at a gust rotation (at least 3000 ms since the
previous one) the sample recorded into the gust window is
windGustClicks / elapsedMs * 1.492 * 0.44704 — the elapsed time is used in
milliseconds, never divided by 1000, and the tick count is the unreset byte
accumulator, excluding the final cycle's windClicks; in particular at 3 ticks
over 3000 ms the recorded 3 / 3000 * 1.492 * 0.44704 differs from the claimed
3 * 1.492 * 0.44704 / (3000 / 1000). -/
theorem c2_gust_sample_off (now adc : ℕ) (st : Station)
    (h1 : st.lastWindGustCheck ≤ now) (h2 : now < st.lastWindGustCheck + 2 ^ 32)
    (h3 : st.lastWindGustCheck < 2 ^ 32) (h4 : 3000 ≤ now - st.lastWindGustCheck) :
    (calc_wind now adc st).windgust_2m (gustIndex st.currentWindGust)
      = (st.windGustClicks : ℚ) / ((now - st.lastWindGustCheck : ℕ) : ℚ) * 1.492 * 0.44704
  ∧ (3 : ℚ) / 3000 * 1.492 * 0.44704 ≠ 3 * 1.492 * 0.44704 / ((3000 : ℚ) / 1000) := by
  refine ⟨?_, by norm_num⟩
  simp only [calc_wind]
  unfold windGustPart
  dsimp only
  rw [windSpeedPart_lastWindGustCheck, windDirPart_lastWindGustCheck,
    usub32_eq h1 h2 h3, if_neg (by omega)]
  simp

/-- Witness for C2: three stale interval ticks, rotation 3000 ms after the
previous one. -/
theorem c2_witness :
    (calc_wind 3000 0 stC2).windgust_2m (gustIndex stC2.currentWindGust)
      = (stC2.windGustClicks : ℚ) / ((3000 - stC2.lastWindGustCheck : ℕ) : ℚ) * 1.492 * 0.44704
  ∧ (3 : ℚ) / 3000 * 1.492 * 0.44704 ≠ 3 * 1.492 * 0.44704 / ((3000 : ℚ) / 1000) :=
  c2_gust_sample_off 3000 0 stC2 (by decide) (by decide) (by decide) (by decide)

/-- The clock step's effect on seconds, minutes and the rain window depends
only on those three fields of its input. -/
theorem clockStep_fields (st' st : Station)
    (hs : st'.seconds = st.seconds) (hm : st'.minutes = st.minutes)
    (hr : st'.rainHour = st.rainHour) :
    (clockStep st').seconds = (clockStep st).seconds
  ∧ (clockStep st').minutes = (clockStep st).minutes
  ∧ (clockStep st').rainHour = (clockStep st).rainHour := by
  by_cases h59 : (st.seconds + 1) % 256 > 59 <;>
    by_cases hm59 : (st.minutes + 1) % 256 > 59 <;>
    simp [clockStep, hs, hm, hr, h59, hm59]

/-- The aggregation cycle's clock fields are those of the clock step applied
to the pre-cycle state: nothing before the clock step touches seconds,
minutes or the rain window. -/
theorem calcWeather_clock (env : Sensors) (now : ℕ) (st : Station) :
    (calcWeather env now st).seconds = (clockStep st).seconds
  ∧ (calcWeather env now st).minutes = (clockStep st).minutes
  ∧ (calcWeather env now st).rainHour = (clockStep st).rainHour := by
  unfold calcWeather
  exact clockStep_fields _ _ (by simp [calc_rain]) (by simp [calc_rain]) (by simp [calc_rain])

/-- Below the rollover, the clock step only increments the seconds byte. -/
theorem clockStep_of_lt (st : Station) (h : st.seconds < 59) :
    (clockStep st).seconds = st.seconds + 1
  ∧ (clockStep st).minutes = st.minutes
  ∧ (clockStep st).rainHour = st.rainHour := by
  have hcond : ¬ (st.seconds + 1) % 256 > 59 := by omega
  unfold clockStep
  dsimp only
  rw [if_neg hcond]
  exact ⟨by simp; omega, rfl, rfl⟩

/-- At the rollover, the clock step resets seconds, advances the minute index
modulo 60 and zeroes the new minute's rain slot. -/
theorem clockStep_of_59 (st : Station) (h : st.seconds = 59) (h2 : st.minutes ≤ 59) :
    (clockStep st).seconds = 0
  ∧ (clockStep st).minutes = (st.minutes + 1) % 60
  ∧ (clockStep st).rainHour = Function.update st.rainHour ((st.minutes + 1) % 60) 0 := by
  have hcond : (st.seconds + 1) % 256 > 59 := by omega
  have hm2 : (if (st.minutes + 1) % 256 > 59 then 0 else (st.minutes + 1) % 256)
      = (st.minutes + 1) % 60 := by
    split <;> omega
  unfold clockStep
  dsimp only
  rw [if_pos hcond, hm2]
  exact ⟨rfl, rfl, rfl⟩

/-- Claim C7: each aggregation cycle increments the seconds counter; exactly
when it exceeds 59 it resets to 0, the minute index advances wrapping at 60,
and the new current minute's rain slot is zeroed; afterwards seconds and
minutes are again within 0..59. -/
theorem c7_clock_invariant (env : Sensors) (now : ℕ) (st : Station)
    (h1 : st.seconds ≤ 59) (h2 : st.minutes ≤ 59) :
    ((calcWeather env now st).seconds ≤ 59 ∧ (calcWeather env now st).minutes ≤ 59)
  ∧ (st.seconds < 59 →
        (calcWeather env now st).seconds = st.seconds + 1
      ∧ (calcWeather env now st).minutes = st.minutes
      ∧ (calcWeather env now st).rainHour = st.rainHour)
  ∧ (st.seconds = 59 →
        (calcWeather env now st).seconds = 0
      ∧ (calcWeather env now st).minutes = (st.minutes + 1) % 60
      ∧ (calcWeather env now st).rainHour
          = Function.update st.rainHour ((st.minutes + 1) % 60) 0) := by
  obtain ⟨e1, e2, e3⟩ := calcWeather_clock env now st
  rw [e1, e2, e3]
  rcases Nat.lt_or_ge st.seconds 59 with hlt | hge
  · obtain ⟨a1, a2, a3⟩ := clockStep_of_lt st hlt
    rw [a1, a2, a3]
    exact ⟨⟨by omega, h2⟩, fun _ => ⟨rfl, rfl, rfl⟩, fun he => absurd he (by omega)⟩
  · have he : st.seconds = 59 := by omega
    obtain ⟨a1, a2, a3⟩ := clockStep_of_59 st he h2
    rw [a1, a2, a3]
    exact ⟨⟨by omega, by omega⟩, fun hlt2 => absurd hlt2 (by omega), fun _ => ⟨rfl, rfl, rfl⟩⟩

/-- The concrete sensor inputs used by witnesses: all reads zero, IR read
failing. -/
def sensors0 : Sensors where
  humidityR := 0
  pressureR := 0
  hTempR := 0
  pTempR := 0
  irOk := false
  irAmbientR := 0
  irObjectR := 0
  wdirAdc := 0
  refAdc := 0
  lightAdc := 0

/-- Witness for C7: a cycle from the power-up state advances the seconds
counter from 0 to 1 and leaves the minute index at 0. -/
theorem c7_witness :
    (calcWeather sensors0 1000 station0).seconds = station0.seconds + 1
  ∧ (calcWeather sensors0 1000 station0).minutes = station0.minutes :=
  ⟨((c7_clock_invariant sensors0 1000 station0 (by decide) (by decide)).2.1 (by decide)).1,
   ((c7_clock_invariant sensors0 1000 station0 (by decide) (by decide)).2.1 (by decide)).2.1⟩

/-- The accumulation loop of calc_rain computes the sum of the first n slots. -/
theorem foldl_range_add (f : ℕ → ℚ) :
    ∀ (n : ℕ) (a : ℚ), (List.range n).foldl (fun acc i => acc + f i) a
      = a + ∑ i in Finset.range n, f i := by
  intro n
  induction n with
  | zero => intro a; simp
  | succ k ih =>
    intro a
    rw [List.range_succ, List.foldl_append, ih, List.foldl_cons, List.foldl_nil,
      Finset.sum_range_succ]
    ring

/-- Claim C8: calc_rain commits the sum of the 60 per-minute slots as the
rain aggregate; an accepted bucket tip raises the current minute's slot by
exactly 0.011 and the next computed aggregate by the same amount. -/
theorem c8_rain_aggregate (now : ℕ) (st : Station)
    (hm : st.minutes < 60)
    (h1 : st.rainlast ≤ now) (h2 : now < st.rainlast + 2 ^ 32)
    (h3 : st.rainlast < 2 ^ 32) (hacc : 10 < now - st.rainlast) :
    (calc_rain st).rainin = ∑ i in Finset.range 60, st.rainHour i
  ∧ (rainIRQ now st).rainHour st.minutes = st.rainHour st.minutes + 0.011
  ∧ (calc_rain (rainIRQ now st)).rainin = (calc_rain st).rainin + 0.011 := by
  have hsum : ∀ s : Station, (calc_rain s).rainin = ∑ i in Finset.range 60, s.rainHour i := by
    intro s
    show (List.range 60).foldl (fun acc i => acc + s.rainHour i) 0 = _
    rw [foldl_range_add]
    ring
  have hirq : rainIRQ now st
      = { st with
          rainHour := Function.update st.rainHour st.minutes (st.rainHour st.minutes + 0.011)
          rainlast := now } := by
    unfold rainIRQ
    dsimp only
    rw [usub32_eq h1 h2 h3, if_pos hacc]
  refine ⟨hsum st, ?_, ?_⟩
  · rw [hirq]
    simp
  · rw [hsum, hsum, hirq]
    have hmem : st.minutes ∈ Finset.range 60 := Finset.mem_range.mpr hm
    calc ∑ i in Finset.range 60,
          Function.update st.rainHour st.minutes (st.rainHour st.minutes + 0.011) i
        = (st.rainHour st.minutes + 0.011)
            + ∑ i in (Finset.range 60).erase st.minutes, st.rainHour i := by
          rw [Finset.sum_update_of_mem hmem, Finset.erase_eq]
      _ = (st.rainHour st.minutes
            + ∑ i in (Finset.range 60).erase st.minutes, st.rainHour i) + 0.011 := by ring
      _ = (∑ i in Finset.range 60, st.rainHour i) + 0.011 := by
          rw [Finset.add_sum_erase _ _ hmem]

/-- Witness for C8: from the power-up state, a tip at 20 ms raises the
aggregate computed by the next calc_rain by 0.011. -/
theorem c8_witness :
    (calc_rain station0).rainin = ∑ i in Finset.range 60, station0.rainHour i
  ∧ (rainIRQ 20 station0).rainHour station0.minutes
      = station0.rainHour station0.minutes + 0.011
  ∧ (calc_rain (rainIRQ 20 station0)).rainin = (calc_rain station0).rainin + 0.011 :=
  c8_rain_aggregate 20 station0 (by decide) (by decide) (by decide) (by decide) (by decide)

/-- Claim C9: an aggregation cycle never changes the module-level IR ambient
and sky temperatures — on a failed IR read the cached values are retained,
and on a successful read the values are captured into shadowing
function-local variables — so the Temperature and SkyTemperature queries
report the values held before the cycle. -/
theorem c9_ir_shadowed (env : Sensors) (now : ℕ) (st : Station) :
    (calcWeather env now st).irTempc = st.irTempc
  ∧ (calcWeather env now st).irSkyTempc = st.irSkyTempc := by
  unfold calcWeather
  constructor <;> simp

/-- Atomic events of the anemometer counter shared between the interrupt
context and the main cycle: an accepted edge (wspeedIRQ, line 102), the main
cycle's read of windClicks into the speed expression (line 329), and the main
cycle's reset windClicks = 0 (line 354).  The sketch never suspends
interrupts inside calc_wind, so an edge may fire between the read and the
reset. -/
inductive WEvent where
  | irqEdge : WEvent
  | mainRead : WEvent
  | mainReset : WEvent

/-- The shared counter, the total the main cycle has taken so far across its
reads, and the total accepted edges delivered. -/
structure WTicks where
  clicks : ℕ
  taken : ℕ
  delivered : ℕ

/-- One interleaved step: an accepted edge increments the byte counter
(line 102), a read adds the current counter to the cycle's running total
(line 329), a reset zeroes the counter (line 354). -/
def wstep : WEvent → WTicks → WTicks
  | WEvent.irqEdge, s => { s with clicks := (s.clicks + 1) % 256, delivered := s.delivered + 1 }
  | WEvent.mainRead, s => { s with taken := s.taken + s.clicks }
  | WEvent.mainReset, s => { s with clicks := 0 }

/-- An interleaving of counter events, executed in order. -/
def wrun (l : List WEvent) (s : WTicks) : WTicks :=
  l.foldl (fun s e => wstep e s) s

/-- Claim C10 (the code side): in the interleaving where an accepted edge
fires between the main cycle's read of windClicks and its reset, the
delivered tick vanishes — one tick was delivered but the total counted
(ticks taken plus ticks still pending in the counter) is zero. -/
theorem c10_lost_tick :
    (wrun [WEvent.mainRead, WEvent.irqEdge, WEvent.mainReset] ⟨0, 0, 0⟩).delivered = 1
  ∧ (wrun [WEvent.mainRead, WEvent.irqEdge, WEvent.mainReset] ⟨0, 0, 0⟩).taken
      + (wrun [WEvent.mainRead, WEvent.irqEdge, WEvent.mainReset] ⟨0, 0, 0⟩).clicks = 0 := by
  exact ⟨rfl, rfl⟩
